import Mathlib

/-!
Verification of the streaming generation client of `easy-ai-art`
(`use-streaming-generation` hook plus the `Index` page handler).

The hook consumes a chunked HTTP response of newline-delimited
`data: `-prefixed JSON events and maintains a `StreamingState`.
We embed the JavaScript values that can reach the state (JSON scalars,
plus `undefined` for absent fields, modelled as `Option JVal`), a model
of `JSON.parse` restricted to the flat escape-free objects this wire
protocol carries (per spec section 6 every event is a flat object of
strings and integers; nested values, string escapes and fractional
numbers never occur in the inputs our theorems evaluate), and the two
read loops, the cancel handler and the page-level generate handler,
translated statement by statement from the source.
-/

/-- Scalar JSON values (the only values the protocol's flat events carry). -/
inductive JVal where
  | null
  | bool (b : Bool)
  | num (n : Int)
  | str (s : String)
deriving DecidableEq, Repr

/-- Result of `JSON.parse` on this protocol: either a scalar or a flat object. -/
inductive Json where
  | val (v : JVal)
  | obj (fields : List (String × JVal))
deriving DecidableEq, Repr

/-- The newline character, used by the `split('\n')` model. -/
def nlC : Char := Char.ofNat 10

/-- The double-quote character. -/
def quoteC : Char := Char.ofNat 34

/-- Opening curly brace. -/
def lbraceC : Char := Char.ofNat 123

/-- Closing curly brace. -/
def rbraceC : Char := Char.ofNat 125

/-- JSON whitespace (also used to model JavaScript `trim`). -/
def wsChar (c : Char) : Bool :=
  c = Char.ofNat 32 || c = Char.ofNat 9 || c = nlC || c = Char.ofNat 13

/-- Drop leading whitespace. -/
def skipWs : List Char → List Char
  | [] => []
  | c :: cs => if wsChar c then skipWs cs else c :: cs

/-- Parse the body of a string literal after its opening quote (escape-free
fragment: the protocol's payloads contain no backslash escapes). -/
def parseStrBody : List Char → Option (List Char × List Char)
  | [] => none
  | c :: cs =>
    if c = quoteC then some ([], cs)
    else
      match parseStrBody cs with
      | some (s, rest) => some (c :: s, rest)
      | none => none

/-- Split a maximal run of decimal digits off the front. -/
def takeDigits : List Char → (List Char × List Char)
  | [] => ([], [])
  | c :: cs =>
    if c.toNat ≥ 48 ∧ c.toNat ≤ 57 then
      let p := takeDigits cs
      (c :: p.1, p.2)
    else ([], c :: cs)

/-- Numeric value of a digit string. -/
def digitsToNat (ds : List Char) : Nat :=
  ds.foldl (fun acc c => acc * 10 + (c.toNat - 48)) 0

/-- Check for a literal keyword at the front of the input. -/
def takeLit (lit : List Char) (cs : List Char) : Option (List Char) :=
  if cs.take lit.length = lit then some (cs.drop lit.length) else none

/-- Parse one scalar JSON value (string, integer, null, true, false). -/
def parseScalar (cs : List Char) : Option (JVal × List Char) :=
  match cs with
  | [] => none
  | c :: rest =>
    if c = quoteC then
      match parseStrBody rest with
      | some (s, r) => some (JVal.str (String.mk s), r)
      | none => none
    else if c = Char.ofNat 45 then
      match takeDigits rest with
      | ([], _) => none
      | (ds, r) => some (JVal.num (-(digitsToNat ds : Int)), r)
    else if c.toNat ≥ 48 ∧ c.toNat ≤ 57 then
      let p := takeDigits (c :: rest)
      some (JVal.num (digitsToNat p.1), p.2)
    else
      match takeLit ("null").data cs with
      | some r => some (JVal.null, r)
      | none =>
        match takeLit ("true").data cs with
        | some r => some (JVal.bool true, r)
        | none =>
          match takeLit ("false").data cs with
          | some r => some (JVal.bool false, r)
          | none => none

/-- Parse the field list of a flat object, positioned just after `{` or a
comma; the fuel bounds recursion depth (each field consumes input). -/
def parseFieldsAux : Nat → List Char → Option (List (String × JVal) × List Char)
  | 0, _ => none
  | fuel + 1, cs =>
    match skipWs cs with
    | [] => none
    | c :: rest =>
      if c = quoteC then
        match parseStrBody rest with
        | none => none
        | some (k, r1) =>
          match skipWs r1 with
          | [] => none
          | c1 :: r2 =>
            if c1 = Char.ofNat 58 then
              match parseScalar (skipWs r2) with
              | none => none
              | some (v, r3) =>
                match skipWs r3 with
                | [] => none
                | c2 :: r4 =>
                  if c2 = Char.ofNat 44 then
                    match parseFieldsAux fuel r4 with
                    | some (fs, r5) => some ((String.mk k, v) :: fs, r5)
                    | none => none
                  else if c2 = rbraceC then some ([(String.mk k, v)], r4)
                  else none
            else none
      else none

/-- Model of `JSON.parse` on the protocol's flat fragment: a scalar or a
flat object of scalar fields, with no trailing garbage; `none` models a
thrown `SyntaxError`. -/
def jsonParse (cs : List Char) : Option Json :=
  match skipWs cs with
  | [] => none
  | c :: rest =>
    if c = lbraceC then
      match skipWs rest with
      | [] => none
      | c2 :: r2 =>
        if c2 = rbraceC then
          if (skipWs r2).isEmpty then some (Json.obj []) else none
        else
          match parseFieldsAux (cs.length + 1) rest with
          | some (fs, r3) => if (skipWs r3).isEmpty then some (Json.obj fs) else none
          | none => none
    else
      match parseScalar (c :: rest) with
      | some (v, r) => if (skipWs r).isEmpty then some (Json.val v) else none
      | none => none

/-- Association lookup with JavaScript `JSON.parse` duplicate-key semantics
(the last occurrence of a key wins). -/
def jlookupLast (k : String) : List (String × JVal) → Option JVal
  | [] => none
  | (k', v) :: fs =>
    match jlookupLast k fs with
    | some v' => some v'
    | none => if k' = k then some v else none

/-- JavaScript property access `j.k`: `none` models `undefined` (absent
field, or property access on a non-object). -/
def getField (j : Json) (k : String) : Option JVal :=
  match j with
  | Json.obj fs => jlookupLast k fs
  | Json.val _ => none

/-- JavaScript truthiness of a JSON scalar. -/
def jsTruthy : JVal → Bool
  | JVal.null => false
  | JVal.bool b => b
  | JVal.num n => n ≠ 0
  | JVal.str s => s ≠ ""

/-- JavaScript `x || d` where `x` may be `undefined`, returning a value. -/
def jsOr (v : Option JVal) (d : JVal) : JVal :=
  match v with
  | some x => if jsTruthy x then x else d
  | none => d

/-- JavaScript `x || d` where both sides may be `undefined`. -/
def jsOrO (v : Option JVal) (d : Option JVal) : Option JVal :=
  match v with
  | some x => if jsTruthy x then some x else d
  | none => d

/-- The `result` object stored by a complete-kind event (`image_url`,
`filename`, `generation_time` are copied from the event without
validation, so each may be `undefined`). -/
structure GenResult where
  image_url : Option JVal
  filename : Option JVal
  generation_time : Option JVal
deriving DecidableEq, Repr

/-- The hook's `StreamingState`. The TypeScript annotations declare
`progress : number` and so on, but at runtime an applied event can store
`undefined` into any of these fields, so they are embedded as
`Option JVal`. -/
structure StreamingState where
  isGenerating : Bool
  progress : Option JVal
  stage : Option JVal
  currentStep : Option JVal
  totalSteps : Option JVal
  error : Option JVal
  result : Option GenResult
deriving DecidableEq, Repr

/-- A text-to-image `GenerationRequest` (fields the state model never
reads are carried for fidelity; numeric fields are integers since no
claim evaluates fractional values). -/
structure GenerationRequest where
  prompt : String
  negative_prompt : Option String := none
  width : Option Int := none
  height : Option Int := none
  num_inference_steps : Option Int := none
  guidance_scale : Option Int := none
  seed : Option Int := none
  model_name : Option String := none
  sampler : Option String := none
deriving DecidableEq, Repr

/-- An `ImageToImageRequest` (only `num_inference_steps` reaches the
state model). -/
structure ImageToImageRequest where
  prompt : String
  image_data : String
  negative_prompt : Option String := none
  strength : Option Int := none
  num_inference_steps : Option Int := none
  guidance_scale : Option Int := none
  model_name : Option String := none
  sampler : Option String := none
deriving DecidableEq, Repr

/-- Observable behaviour of one transport attempt: a non-OK HTTP status,
a response with no readable body, or a stream that yields the listed
decoded chunks and then either ends cleanly (`midFail = none`) or makes
the next `reader.read()` throw with the given message. -/
inductive Transport where
  | httpError (status : Int)
  | noBody
  | stream (chunks : List (List Char)) (midFail : Option String)
deriving DecidableEq, Repr

/-- Handles held by the hook: `eventSourceRef.current` (which the source
only ever closes and nulls, never assigns) and whether the in-flight
fetch response reader is still open. -/
structure SessionHandles where
  eventSource : Option Unit
  fetchReaderOpen : Bool
deriving DecidableEq, Repr

/-- JavaScript `String.prototype.split('\n')`: every maximal
newline-free segment, including empty ones; `[""]` on empty input. -/
def splitLines : List Char → List (List Char)
  | [] => [[]]
  | c :: cs =>
    match splitLines cs with
    | [] => [[]]
    | l :: ls => if c = nlC then [] :: l :: ls else (c :: l) :: ls

/-- The `data: ` framing marker. -/
def dataMarker : List Char := ("data: ").data

/-- The parse stage shared by both loops' line handling: `none` when the
line lacks the `data: ` marker or when `JSON.parse` of the payload
throws (both cases are logged and skipped by the source). -/
def parseEventLine (line : List Char) : Option Json :=
  if line.take 6 = dataMarker then jsonParse (line.drop 6) else none

/-- Event dispatch of `generateImageStream` (source lines 126-156): the
three recognised kinds update state with the event's field values taken
verbatim; the `Bool` is true when the branch executes `return`. A parsed
payload whose `type` is not one of the three strings falls through with
no state change, as does a scalar payload (property access on a
primitive yields `undefined`; on `null` it throws inside the same
`try`, which is observationally the same skip). -/
def dispatchT2I (s : StreamingState) (j : Json) : StreamingState × Bool :=
  match getField j "type" with
  | some (JVal.str t) =>
    if t = "progress" then
      ({ s with progress := getField j "progress", stage := getField j "stage",
                currentStep := getField j "step", totalSteps := getField j "total_steps" }, false)
    else if t = "complete" then
      ({ s with isGenerating := false, progress := some (JVal.num 100),
                stage := some (JVal.str "Completed"),
                currentStep := getField j "step", totalSteps := getField j "total_steps",
                result := some ⟨getField j "image_url", getField j "filename",
                                getField j "generation_time"⟩ }, true)
    else if t = "error" then
      ({ s with isGenerating := false, error := getField j "message" }, true)
    else (s, false)
  | _ => (s, false)

/-- One line of `generateImageStream`'s inner loop. -/
def processLineT2I (s : StreamingState) (line : List Char) : StreamingState × Bool :=
  match parseEventLine line with
  | none => (s, false)
  | some j => dispatchT2I s j

/-- The `for (const line of lines)` loop of `generateImageStream`; the
flag records that a terminal branch executed `return`, which aborts the
whole function. -/
def processLinesT2I (s : StreamingState) : List (List Char) → StreamingState × Bool
  | [] => (s, false)
  | l :: ls =>
    match processLineT2I s l with
    | (s', true) => (s', true)
    | (s', false) => processLinesT2I s' ls

/-- The chunk loop of `generateImageStream` (source lines 111-162): each
chunk is split on newlines independently — there is no carry-over buffer
for a trailing partial line. -/
def readLoopT2I (s : StreamingState) : List (List Char) → StreamingState × Bool
  | [] => (s, false)
  | chunk :: rest =>
    match processLinesT2I s (splitLines chunk) with
    | (s', true) => (s', true)
    | (s', false) => readLoopT2I s' rest

/-- Event dispatch of `generateImageToImageStream` (source lines
272-300): progress fields go through JavaScript `||` fallbacks, the
complete branch does not touch the step counters, and the terminal
branches execute `break` (the flag), which only exits the line loop. -/
def dispatchI2I (s : StreamingState) (j : Json) : StreamingState × Bool :=
  match getField j "type" with
  | some (JVal.str t) =>
    if t = "progress" then
      ({ s with progress := some (jsOr (getField j "progress") (JVal.num 0)),
                stage := jsOrO (getField j "stage") s.stage,
                currentStep := some (jsOr (getField j "step") (JVal.num 0)),
                totalSteps := jsOrO (getField j "total_steps") s.totalSteps }, false)
    else if t = "complete" then
      ({ s with isGenerating := false, progress := some (JVal.num 100),
                stage := some (JVal.str "Completed"),
                result := some ⟨getField j "image_url", getField j "filename",
                                getField j "generation_time"⟩ }, true)
    else if t = "error" then
      ({ s with isGenerating := false,
                error := some (jsOr (getField j "message")
                                    (JVal.str "Unknown error occurred")) }, true)
    else (s, false)
  | _ => (s, false)

/-- One line of `generateImageToImageStream`'s inner loop, which also
skips a `data: ` line whose payload is blank (`data.trim() === ''`). -/
def processLineI2I (s : StreamingState) (line : List Char) : StreamingState × Bool :=
  if line.take 6 = dataMarker then
    let data := line.drop 6
    if data.all wsChar then (s, false)
    else
      match jsonParse data with
      | none => (s, false)
      | some j => dispatchI2I s j
  else (s, false)

/-- The line loop of `generateImageToImageStream`: `break` stops the
remaining lines of this batch only, so no flag escapes to the caller. -/
def processLinesI2I (s : StreamingState) : List (List Char) → StreamingState
  | [] => s
  | l :: ls =>
    match processLineI2I s l with
    | (s', true) => s'
    | (s', false) => processLinesI2I s' ls

/-- The chunk loop of `generateImageToImageStream` (source lines
252-306): the buffer is prefixed onto the chunk, complete lines are
processed, and the trailing element of the split (`lines.pop() || ''`)
is carried as the next buffer; the loop always continues to the next
read because `break` in the line loop does not exit the `while`. -/
def readLoopI2I (s : StreamingState) (buffer : List Char) :
    List (List Char) → StreamingState
  | [] => s
  | chunk :: rest =>
    let lines := splitLines (buffer ++ chunk)
    readLoopI2I (processLinesI2I s lines.dropLast) (lines.getLastD []) rest

/-- JavaScript `x || d` on the numeric request fields (0 and absent both
select the default). -/
def jsOrNum (v : Option Int) (d : Int) : Int :=
  match v with
  | some n => if n = 0 then d else n
  | none => d

/-- The initial `setState` of `generateImageStream` (source lines 47-55). -/
def initialStreamState (req : GenerationRequest) : StreamingState :=
  { isGenerating := true, progress := some (JVal.num 0),
    stage := some (JVal.str "Initializing"), currentStep := some (JVal.num 0),
    totalSteps := some (JVal.num (jsOrNum req.num_inference_steps 6)),
    error := none, result := none }

/-- The initial `setState` of `generateImageToImageStream` (source lines
203-211). -/
def initialI2IState (req : ImageToImageRequest) : StreamingState :=
  { isGenerating := true, progress := some (JVal.num 0),
    stage := some (JVal.str "Initializing img2img"), currentStep := some (JVal.num 0),
    totalSteps := some (JVal.num (jsOrNum req.num_inference_steps 20)),
    error := none, result := none }

/-- The `catch` blocks of both generators: mark not generating and store
the thrown error's message. -/
def catchState (s : StreamingState) (msg : String) : StreamingState :=
  { s with isGenerating := false, error := some (JVal.str msg) }

/-- Model of `generateImageStream` (source lines 44-171): reset state,
then run the transport; a non-OK status or missing body throws into the
catch; a clean stream end (`done`) just breaks out of the loop with no
further state change; a mid-stream read failure after the delivered
chunks throws into the catch unless a terminal event already returned. -/
def generateImageStream (req : GenerationRequest) (t : Transport) : StreamingState :=
  let s1 := initialStreamState req
  match t with
  | Transport.httpError status => catchState s1 ("HTTP error! status: " ++ toString status)
  | Transport.noBody => catchState s1 "Failed to get response stream reader"
  | Transport.stream chunks midFail =>
    match readLoopT2I s1 chunks with
    | (s2, true) => s2
    | (s2, false) =>
      match midFail with
      | some msg => catchState s2 msg
      | none => s2

/-- Model of `generateImageToImageStream` (source lines 200-316): as
above but with the buffered loop, whose terminal `break` does not end
the read loop, so a mid-stream failure is caught even after a terminal
event was applied. -/
def generateImageToImageStream (req : ImageToImageRequest) (t : Transport) : StreamingState :=
  let s1 := initialI2IState req
  match t with
  | Transport.httpError status => catchState s1 ("HTTP error! status: " ++ toString status)
  | Transport.noBody => catchState s1 "No response body available for streaming"
  | Transport.stream chunks midFail =>
    let s2 := readLoopI2I s1 [] chunks
    match midFail with
    | some msg => catchState s2 msg
    | none => s2

/-- Model of `cancelGeneration` (source lines 175-186): close and null
`eventSourceRef.current` if set, then set `isGenerating := false` and
`error := "Generation cancelled"`. Nothing else is touched — in
particular the fetch reader of an in-flight generation, which the
source never stores in `eventSourceRef`. -/
def cancelGeneration (h : SessionHandles) (s : StreamingState) :
    SessionHandles × StreamingState :=
  ({ eventSource := none, fetchReaderOpen := h.fetchReaderOpen },
   { s with isGenerating := false, error := some (JVal.str "Generation cancelled") })

/-- The handles while a `generateImageStream` call is in flight: the
function closes any previous `EventSource` and never assigns the ref,
and its fetch reader is open. -/
def inFlightHandles : SessionHandles := { eventSource := none, fetchReaderOpen := true }

/-- Model of `resetState` (source lines 188-198). -/
def resetState : StreamingState :=
  { isGenerating := false, progress := some (JVal.num 0), stage := some (JVal.str ""),
    currentStep := some (JVal.num 0), totalSteps := some (JVal.num 0),
    error := none, result := none }

/-- JavaScript `String.prototype.trim` (ASCII whitespace fragment). -/
def jsTrim (s : String) : String :=
  String.mk (((s.data.dropWhile wsChar).reverse.dropWhile wsChar).reverse)

/-- Outcome of one `handleGenerate` invocation on the `Index` page:
whether a network request was issued, the toasts raised synchronously by
the validation gate, and the streaming state when the call settles. -/
structure HandleGenerateResult where
  networkCall : Bool
  toasts : List String
  finalState : StreamingState
deriving DecidableEq, Repr

/-- Model of `handleGenerate` (Index.tsx lines 65-89, streaming path,
which `useStreaming`'s initial value selects): an empty-after-trim
prompt raises the validation toast and returns before `resetState`,
before the request is built and before any fetch; otherwise the trimmed
request is built (`negative_prompt` drops to absent when its trim is
empty) and `generateImageStream` runs against the transport. The
string-to-integer `parseInt` conversion of the seed box is abstracted by
taking the seed as an already-parsed optional integer. -/
def handleGenerate (prompt negativePrompt : String) (seed : Option Int)
    (steps width height : Int) (sampler : String)
    (t : Transport) (s : StreamingState) : HandleGenerateResult :=
  if jsTrim prompt = "" then
    { networkCall := false, toasts := ["Please enter a prompt"], finalState := s }
  else
    { networkCall := true, toasts := [],
      finalState := generateImageStream
        { prompt := jsTrim prompt,
          negative_prompt := if jsTrim negativePrompt = "" then none
                             else some (jsTrim negativePrompt),
          width := some width, height := some height,
          num_inference_steps := some steps, seed := seed,
          model_name := some "sdxl-turbo", sampler := some sampler } t }

set_option maxRecDepth 100000

/-- Terminal errored shape of the state: not generating, with the given
message stored in `error`. -/
def terminalErrored (st : StreamingState) (m : String) : Prop :=
  st.isGenerating = false ∧ st.error = some (JVal.str m)

instance (st : StreamingState) (m : String) : Decidable (terminalErrored st m) :=
  inferInstanceAs (Decidable (And _ _))

/-- A branch of `dispatchT2I` that does not execute `return` leaves the
generating flag and the error field untouched. -/
theorem dispatchT2I_false_inv {s : StreamingState} {j : Json} {s' : StreamingState}
    (h : dispatchT2I s j = (s', false)) :
    s'.isGenerating = s.isGenerating ∧ s'.error = s.error := by
  unfold dispatchT2I at h
  split at h
  · split at h
    · cases h; exact ⟨rfl, rfl⟩
    · split at h
      · simp at h
      · split at h
        · simp at h
        · cases h; exact ⟨rfl, rfl⟩
  · cases h; exact ⟨rfl, rfl⟩

/-- Processing one line without returning preserves the generating flag
and the error field. -/
theorem processLineT2I_false_inv {s : StreamingState} {l : List Char} {s' : StreamingState}
    (h : processLineT2I s l = (s', false)) :
    s'.isGenerating = s.isGenerating ∧ s'.error = s.error := by
  unfold processLineT2I at h
  split at h
  · cases h; exact ⟨rfl, rfl⟩
  · exact dispatchT2I_false_inv h

/-- Processing a batch of lines without returning preserves the
generating flag and the error field. -/
theorem processLinesT2I_false_inv {s : StreamingState} {ls : List (List Char)}
    {s' : StreamingState} (h : processLinesT2I s ls = (s', false)) :
    s'.isGenerating = s.isGenerating ∧ s'.error = s.error := by
  induction ls generalizing s with
  | nil => cases h; exact ⟨rfl, rfl⟩
  | cons l ls ih =>
    unfold processLinesT2I at h
    split at h
    · simp at h
    · rename_i s'' heq
      obtain ⟨h1, h2⟩ := ih h
      obtain ⟨h3, h4⟩ := processLineT2I_false_inv heq
      exact ⟨h1.trans h3, h2.trans h4⟩

/-- A `generateImageStream` read loop that never hits a terminal event
preserves the generating flag and the error field. -/
theorem readLoopT2I_false_inv {s : StreamingState} {cs : List (List Char)}
    {s' : StreamingState} (h : readLoopT2I s cs = (s', false)) :
    s'.isGenerating = s.isGenerating ∧ s'.error = s.error := by
  induction cs generalizing s with
  | nil => cases h; exact ⟨rfl, rfl⟩
  | cons c cs ih =>
    unfold readLoopT2I at h
    split at h
    · simp at h
    · rename_i s'' heq
      obtain ⟨h1, h2⟩ := ih h
      obtain ⟨h3, h4⟩ := processLinesT2I_false_inv heq
      exact ⟨h1.trans h3, h2.trans h4⟩

/-- Once the `generateImageStream` loop has returned on a terminal
event, chunks that would have followed do not change the outcome. -/
theorem readLoopT2I_append_of_terminal {s : StreamingState} {cs : List (List Char)}
    (cs' : List (List Char)) (h : (readLoopT2I s cs).2 = true) :
    readLoopT2I s (cs ++ cs') = readLoopT2I s cs := by
  induction cs generalizing s with
  | nil => simp [readLoopT2I] at h
  | cons c rest ih =>
    rw [List.cons_append]
    unfold readLoopT2I at h ⊢
    rcases hp : processLinesT2I s (splitLines c) with ⟨s2, b⟩
    rw [hp] at h
    cases b
    · simpa using ih (by simpa using h)
    · simp

/-- A line that carries no parseable event is skipped with no state
change. -/
theorem processLineT2I_skip {s : StreamingState} {l : List Char}
    (h : parseEventLine l = none) : processLineT2I s l = (s, false) := by
  unfold processLineT2I
  rw [h]

/-- Deleting one unparseable line from a batch does not change how the
batch is processed. -/
theorem processLinesT2I_skip_middle {bad : List Char} (s : StreamingState)
    (pre post : List (List Char)) (h : parseEventLine bad = none) :
    processLinesT2I s (pre ++ bad :: post) = processLinesT2I s (pre ++ post) := by
  induction pre generalizing s with
  | nil =>
    simp only [List.nil_append]
    conv_lhs => rw [processLinesT2I, processLineT2I_skip h]
  | cons p pre ih =>
    simp only [List.cons_append, processLinesT2I]
    rcases hp : processLineT2I s p with ⟨s', b⟩
    cases b
    · exact ih s'
    · rfl

/-- The newline split never produces an empty list of segments. -/
theorem splitLines_ne_nil (cs : List Char) : splitLines cs ≠ [] := by
  induction cs with
  | nil => simp [splitLines]
  | cons c cs ih =>
    unfold splitLines
    rcases h : splitLines cs with _ | ⟨l, ls⟩
    · simp
    · by_cases hc : c = nlC <;> simp [hc]

/-- The newline split is its own head consed onto its own tail. -/
theorem splitLines_shape (cs : List Char) :
    splitLines cs = (splitLines cs).headI :: (splitLines cs).tail := by
  rcases h : splitLines cs with _ | ⟨l, ls⟩
  · exact absurd h (splitLines_ne_nil cs)
  · simp

/-- Prepending newline-free text extends the first segment of the split. -/
theorem splitLines_append {a : List Char} (cs : List Char) (ha : nlC ∉ a) :
    splitLines (a ++ cs) = (a ++ (splitLines cs).headI) :: (splitLines cs).tail := by
  induction a with
  | nil => simpa using splitLines_shape cs
  | cons c a ih =>
    have hc : c ≠ nlC := fun hcc => ha (by simp [hcc])
    have ha' : nlC ∉ a := fun hmem => ha (by simp [hmem])
    rw [List.cons_append]
    conv_lhs => rw [splitLines]
    rw [ih ha']
    simp [hc]

/-- Newline-free text splits into a single segment. -/
theorem splitLines_single (a : List Char) (ha : nlC ∉ a) : splitLines a = [a] := by
  have := splitLines_append (a := a) [] ha
  simpa [splitLines] using this

/-- Splitting a lone newline gives two empty segments. -/
theorem splitLines_nl : splitLines [nlC] = [[], []] := by decide

/-- A newline-terminated newline-free line splits into the line and an
empty trailing segment. -/
theorem splitLines_line (a : List Char) (ha : nlC ∉ a) :
    splitLines (a ++ [nlC]) = [a, []] := by
  have := splitLines_append (a := a) [nlC] ha
  simpa [splitLines_nl] using this

/-- The buffered img2img loop is insensitive to a two-chunk split of a
newline-terminated line: the partial first chunk is carried in the
buffer and processed together with the second. -/
theorem readLoopI2I_buffered_split (s : StreamingState) (a b : List Char)
    (ha : nlC ∉ a) (hb : nlC ∉ b) :
    readLoopI2I s [] [a, b ++ [nlC]] = readLoopI2I s [] [a ++ b ++ [nlC]] := by
  have hab : nlC ∉ a ++ b := by
    intro hm
    rcases List.mem_append.mp hm with h1 | h2
    · exact ha h1
    · exact hb h2
  have h1 : splitLines a = [a] := splitLines_single a ha
  have h2 : splitLines (a ++ (b ++ [nlC])) = [a ++ b, []] := by
    rw [← List.append_assoc]
    exact splitLines_line (a ++ b) hab
  have h3 : splitLines (a ++ b ++ [nlC]) = [a ++ b, []] := splitLines_line (a ++ b) hab
  simp only [readLoopI2I, List.nil_append, h1, h3]
  have e1 : ([a] : List (List Char)).dropLast = [] := rfl
  have e2 : ([a] : List (List Char)).getLastD [] = a := rfl
  rw [e1, e2, h2]
  rfl

/-- A minimal valid text-to-image request. -/
def reqCat : GenerationRequest := { prompt := "a cat" }

/-- A minimal valid image-to-image request. -/
def ireqCat : ImageToImageRequest := { prompt := "a cat", image_data := "QUFB" }

/-- A well-formed progress event frame (progress 42). -/
def progLine : List Char :=
  ("data: \x7b\"type\":\"progress\",\"progress\":42,\"stage\":\"Sampling\",\"step\":2,\"total_steps\":6\x7d").data

/-- A well-formed complete event frame for `/images/a.png`. -/
def compLineA : List Char :=
  ("data: \x7b\"type\":\"complete\",\"image_url\":\"/images/a.png\",\"filename\":\"a.png\",\"generation_time\":3,\"step\":6,\"total_steps\":6\x7d").data

/-- A second well-formed complete event frame, for `/images/b.png`. -/
def compLineB : List Char :=
  ("data: \x7b\"type\":\"complete\",\"image_url\":\"/images/b.png\",\"filename\":\"b.png\",\"generation_time\":4,\"step\":6,\"total_steps\":6\x7d").data

/-- A complete-kind event missing every required field. -/
def bareCompleteLine : List Char := ("data: \x7b\"type\":\"complete\"\x7d").data

/-- A `data: ` frame whose payload is not valid JSON. -/
def badJsonLine : List Char := ("data: \x7bbad json\x7d").data

/-- A line without the `data: ` framing marker. -/
def notEventLine : List Char := ("not-an-event").data

/-- Newline-terminate a line to make one full stream chunk. -/
def nlTerm (l : List Char) : List Char := l ++ [nlC]

/-- A structurally valid progress event whose progress value 150 is
outside the 0-100 contract. -/
def progEvt150 : Json :=
  Json.obj [("type", JVal.str "progress"), ("progress", JVal.num 150),
            ("stage", JVal.str "Sampling"), ("step", JVal.num 3),
            ("total_steps", JVal.num 6)]

/-- A structurally valid progress event whose `step` and `total_steps`
are the in-contract value 0. -/
def progEvtZeroTotals : Json :=
  Json.obj [("type", JVal.str "progress"), ("progress", JVal.num 50),
            ("stage", JVal.str "Sampling"), ("step", JVal.num 0),
            ("total_steps", JVal.num 0)]

/-- C1 counterexample: a stream that delivers one progress event and
then ends cleanly leaves the session with `isGenerating = true` and no
error recorded — the claimed implicit terminal Errored state is never
entered. -/
theorem c1_stream_end_counterexample :
    (generateImageStream reqCat (Transport.stream [nlTerm progLine] none)).isGenerating = true ∧
    (generateImageStream reqCat (Transport.stream [nlTerm progLine] none)).error = none := by
  decide

/-- C1 amended: whenever the stream ends (the reader reports done)
without a complete-kind or error-kind event having returned,
`generateImageStream` falls out of its read loop with no further state
change, so `isGenerating` remains `true` and no error is recorded. -/
theorem c1_stream_end_leaves_generating (req : GenerationRequest)
    (chunks : List (List Char))
    (hnt : (readLoopT2I (initialStreamState req) chunks).2 = false) :
    (generateImageStream req (Transport.stream chunks none)).isGenerating = true ∧
    (generateImageStream req (Transport.stream chunks none)).error = none := by
  simp only [generateImageStream]
  rcases hr : readLoopT2I (initialStreamState req) chunks with ⟨s2, flag⟩
  cases flag
  · obtain ⟨h1, h2⟩ := readLoopT2I_false_inv hr
    exact ⟨h1.trans rfl, h2.trans rfl⟩
  · rw [hr] at hnt
    exact Bool.noConfusion hnt

/-- C1 witness: the amended theorem at the empty stream. -/
theorem c1_stream_end_leaves_generating_witness :
    (generateImageStream reqCat (Transport.stream [] none)).isGenerating = true ∧
    (generateImageStream reqCat (Transport.stream [] none)).error = none :=
  c1_stream_end_leaves_generating reqCat [] rfl

/-- C2 counterexample: with a `generateImageStream` call in flight (the
source never stores its fetch reader in `eventSourceRef`, which it
closed at start), `cancelGeneration` leaves the fetch reader open, so
the read loop is not terminated by cancel. -/
theorem c2_cancel_counterexample :
    (cancelGeneration inFlightHandles (initialStreamState reqCat)).1.fetchReaderOpen = true ∧
    (cancelGeneration inFlightHandles (initialStreamState reqCat)).2.error =
      some (JVal.str "Generation cancelled") := by
  decide

/-- C2 amended: `cancelGeneration` closes and nulls only the
`eventSourceRef` handle and marks the state cancelled; it never touches
the fetch reader that `generateImageStream` actually reads from, so an
in-flight transport stays open across cancel. -/
theorem c2_cancel_closes_eventsource_only (h : SessionHandles) (s : StreamingState) :
    (cancelGeneration h s).1.eventSource = none ∧
    (cancelGeneration h s).1.fetchReaderOpen = h.fetchReaderOpen ∧
    (cancelGeneration h s).2.isGenerating = false ∧
    (cancelGeneration h s).2.error = some (JVal.str "Generation cancelled") ∧
    (cancelGeneration h s).2.progress = s.progress ∧
    (cancelGeneration h s).2.result = s.result :=
  ⟨rfl, rfl, rfl, rfl, rfl, rfl⟩

/-- C3 counterexample: in `generateImageToImageStream`, a second
complete event arriving in a later chunk after the session became
terminal is applied and overwrites `result`. -/
theorem c3_second_complete_counterexample :
    (readLoopI2I (initialI2IState ireqCat) [] [nlTerm compLineA]).isGenerating = false ∧
    (readLoopI2I (initialI2IState ireqCat) [] [nlTerm compLineA, nlTerm compLineB]).result ≠
      (readLoopI2I (initialI2IState ireqCat) [] [nlTerm compLineA]).result := by
  decide

/-- C3 amended: in `generateImageStream` a complete-kind or error-kind
event executes `return`, so chunks after the terminal event are never
applied; but event application itself carries no terminal guard, so in
`generateImageToImageStream` (whose `break` only exits the line loop)
and after `cancelGeneration`, later events are applied and do change
state — a second complete event overwrites `result`. -/
theorem c3_terminal_return_stops_t2i (s : StreamingState)
    (cs cs' : List (List Char)) (h : (readLoopT2I s cs).2 = true) :
    readLoopT2I s (cs ++ cs') = readLoopT2I s cs :=
  readLoopT2I_append_of_terminal cs' h

/-- C3 witness: after a complete event chunk, a following progress chunk
does not change the outcome of `generateImageStream`'s loop. -/
theorem c3_terminal_return_stops_t2i_witness :
    readLoopT2I (initialStreamState reqCat) ([nlTerm compLineA] ++ [nlTerm progLine]) =
      readLoopT2I (initialStreamState reqCat) [nlTerm compLineA] :=
  c3_terminal_return_stops_t2i (initialStreamState reqCat) [nlTerm compLineA]
    [nlTerm progLine] (by decide)

/-- C4 counterexample: calling `cancelGeneration` on the idle state (no
generation in flight, `isGenerating = false`) changes the state: the
`error` field becomes "Generation cancelled". -/
theorem c4_cancel_idle_counterexample :
    (cancelGeneration { eventSource := none, fetchReaderOpen := false } resetState).2 ≠
      resetState := by
  decide

/-- C4 amended: `cancelGeneration` is idempotent (cancel after cancel
equals a single cancel), but it is not a no-op on states with
`isGenerating = false`: it unconditionally sets `isGenerating := false`
and `error := "Generation cancelled"`, so it leaves the state unchanged
exactly when the state already has that shape. -/
theorem c4_cancel_idempotent_sets_error (h : SessionHandles) (s : StreamingState) :
    cancelGeneration (cancelGeneration h s).1 (cancelGeneration h s).2 =
      cancelGeneration h s ∧
    ((cancelGeneration h s).2 = s ↔
      s.isGenerating = false ∧ s.error = some (JVal.str "Generation cancelled")) := by
  refine ⟨rfl, ?_⟩
  obtain ⟨g, p, st, cs, ts, e, r⟩ := s
  simp [cancelGeneration, StreamingState.mk.injEq]
  tauto

/-- C5 counterexample: `generateImageStream` does not carry a trailing
partial line across chunks: a progress event whose `data: ` line is
split over two chunks is never parsed (the state stays at its initial
value), while the same bytes in one chunk apply the event. -/
theorem c5_t2i_split_line_counterexample :
    readLoopT2I (initialStreamState reqCat)
        [progLine.take 15, nlTerm (progLine.drop 15)] =
      (initialStreamState reqCat, false) ∧
    (readLoopT2I (initialStreamState reqCat) [nlTerm progLine]).1.progress =
      some (JVal.num 42) := by
  decide

/-- C5 amended: only `generateImageToImageStream` buffers the trailing
incomplete line: its loop yields the same final state whether a
newline-terminated event line arrives whole or split across two chunks,
so the event is parsed exactly once; `generateImageStream` splits each
chunk independently and drops such an event. -/
theorem c5_i2i_buffered_line_split (s : StreamingState) (a b : List Char)
    (ha : nlC ∉ a) (hb : nlC ∉ b) :
    readLoopI2I s [] [a, b ++ [nlC]] = readLoopI2I s [] [a ++ b ++ [nlC]] :=
  readLoopI2I_buffered_split s a b ha hb

/-- C5 witness: the amended theorem on the progress event line split at
character 15. -/
theorem c5_i2i_buffered_line_split_witness :
    readLoopI2I (initialI2IState ireqCat) []
        [progLine.take 15, progLine.drop 15 ++ [nlC]] =
      readLoopI2I (initialI2IState ireqCat) []
        [progLine.take 15 ++ progLine.drop 15 ++ [nlC]] :=
  c5_i2i_buffered_line_split (initialI2IState ireqCat) (progLine.take 15)
    (progLine.drop 15) (by decide) (by decide)

/-- C6: a prompt that is empty after trimming makes `handleGenerate`
return at the validation gate: the validation toast is raised, no
network call is issued, and the streaming state is left untouched (in
particular it is not put into a generating state). -/
theorem c6_empty_prompt_no_network (prompt np : String) (seed : Option Int)
    (steps w ht : Int) (sampler : String) (t : Transport) (s : StreamingState)
    (hp : jsTrim prompt = "") :
    handleGenerate prompt np seed steps w ht sampler t s =
      { networkCall := false, toasts := ["Please enter a prompt"], finalState := s } := by
  simp [handleGenerate, hp]

/-- C6 witness: the theorem on a whitespace-only prompt with the idle
state and a transport that would fail if contacted. -/
theorem c6_empty_prompt_no_network_witness :
    handleGenerate "   " "" none 6 512 512 "lcm" Transport.noBody resetState =
      { networkCall := false, toasts := ["Please enter a prompt"],
        finalState := resetState } :=
  c6_empty_prompt_no_network "   " "" none 6 512 512 "lcm" Transport.noBody
    resetState (by decide)

/-- C7 counterexample: a complete-kind event missing every required
field (image reference, filename, elapsed time) is not skipped: it is
applied, terminating the session and storing a `result` whose
components are all undefined. -/
theorem c7_missing_fields_applied_counterexample :
    (processLineT2I (initialStreamState reqCat) bareCompleteLine).1.result =
      some ⟨none, none, none⟩ ∧
    (processLineT2I (initialStreamState reqCat) bareCompleteLine).1 ≠
      initialStreamState reqCat := by
  decide

/-- C7 amended: the parser validates nothing beyond `JSON.parse`
succeeding and the `type` tag: any payload whose `type` is `complete`
is applied verbatim, with missing fields carried into state as
undefined values rather than the event being logged and skipped. -/
theorem c7_no_required_field_validation (s : StreamingState) (j : Json)
    (h : getField j "type" = some (JVal.str "complete")) :
    dispatchT2I s j =
      ({ s with isGenerating := false, progress := some (JVal.num 100),
                stage := some (JVal.str "Completed"),
                currentStep := getField j "step", totalSteps := getField j "total_steps",
                result := some ⟨getField j "image_url", getField j "filename",
                                getField j "generation_time"⟩ }, true) := by
  simp [dispatchT2I, h]

/-- C7 witness: the amended theorem on the field-less complete event. -/
theorem c7_no_required_field_validation_witness :
    dispatchT2I resetState (Json.obj [("type", JVal.str "complete")]) =
      ({ resetState with
          isGenerating := false, progress := some (JVal.num 100),
          stage := some (JVal.str "Completed"),
          currentStep := getField (Json.obj [("type", JVal.str "complete")]) "step",
          totalSteps := getField (Json.obj [("type", JVal.str "complete")]) "total_steps",
          result := some ⟨getField (Json.obj [("type", JVal.str "complete")]) "image_url",
                          getField (Json.obj [("type", JVal.str "complete")]) "filename",
                          getField (Json.obj [("type", JVal.str "complete")]) "generation_time"⟩ },
       true) :=
  c7_no_required_field_validation resetState (Json.obj [("type", JVal.str "complete")])
    (by decide)

/-- C8 counterexample: `generateImageToImageStream` does not forward
progress fields verbatim: on a structurally valid progress event whose
`total_steps` is 0, the stored `totalSteps` keeps the previous value 20
instead of the event's 0. -/
theorem c8_i2i_not_verbatim_counterexample :
    getField progEvtZeroTotals "type" = some (JVal.str "progress") ∧
    (dispatchI2I (initialI2IState ireqCat) progEvtZeroTotals).1.totalSteps ≠
      getField progEvtZeroTotals "total_steps" := by
  decide

/-- C8 amended: `generateImageStream` forwards progress, stage, step and
total_steps verbatim with no clamping (so progress 150 is stored as
150); `generateImageToImageStream` also passes the out-of-range 150
through unclamped, but replaces falsy field values (0, empty string,
missing) with defaults or the previous state. -/
theorem c8_progress_forwarding (s : StreamingState) (j : Json)
    (ht : getField j "type" = some (JVal.str "progress"))
    (hp : getField j "progress" = some (JVal.num 150)) :
    (dispatchT2I s j).1.progress = some (JVal.num 150) ∧
    (dispatchT2I s j).1.stage = getField j "stage" ∧
    (dispatchT2I s j).1.currentStep = getField j "step" ∧
    (dispatchT2I s j).1.totalSteps = getField j "total_steps" ∧
    (dispatchI2I s j).1.progress = some (JVal.num 150) := by
  simp [dispatchT2I, dispatchI2I, ht, hp, jsOr, jsTruthy]

/-- C8 witness: the amended theorem on the progress-150 event. -/
theorem c8_progress_forwarding_witness :
    (dispatchT2I resetState progEvt150).1.progress = some (JVal.num 150) ∧
    (dispatchT2I resetState progEvt150).1.stage = getField progEvt150 "stage" ∧
    (dispatchT2I resetState progEvt150).1.currentStep = getField progEvt150 "step" ∧
    (dispatchT2I resetState progEvt150).1.totalSteps = getField progEvt150 "total_steps" ∧
    (dispatchI2I resetState progEvt150).1.progress = some (JVal.num 150) :=
  c8_progress_forwarding resetState progEvt150 (by decide) (by decide)

/-- C9: a line without the `data: ` marker or with an unparseable
payload is skipped without aborting the loop: removing it from the
stream leaves the processing of every other line unchanged, so valid
events before and after it are all applied and no parse failure
escapes. -/
theorem c9_malformed_line_skipped (s : StreamingState)
    (pre post : List (List Char)) (bad : List Char)
    (h : parseEventLine bad = none) :
    processLinesT2I s (pre ++ bad :: post) = processLinesT2I s (pre ++ post) :=
  processLinesT2I_skip_middle s pre post h

/-- C9 witness: a bad-JSON frame between a progress event and a
complete event is skipped and both neighbours are still processed. -/
theorem c9_malformed_line_skipped_witness :
    processLinesT2I (initialStreamState reqCat)
        ([progLine] ++ badJsonLine :: [compLineA]) =
      processLinesT2I (initialStreamState reqCat) ([progLine] ++ [compLineA]) :=
  c9_malformed_line_skipped (initialStreamState reqCat) [progLine] [compLineA]
    badJsonLine (by decide)

/-- C10: every modelled transport failure (non-OK HTTP status, missing
response body, read failure mid-stream) is caught inside the operation
and recorded solely in the state: the call returns a state (it never
propagates the failure) with `isGenerating = false` and `error` holding
the failure message, for both generators. -/
theorem c10_transport_failures_caught (req : GenerationRequest)
    (ireq : ImageToImageRequest) (status : Int) (chunks ichunks : List (List Char))
    (msg : String) (hnt : (readLoopT2I (initialStreamState req) chunks).2 = false) :
    terminalErrored (generateImageStream req (Transport.httpError status))
      ("HTTP error! status: " ++ toString status) ∧
    terminalErrored (generateImageStream req Transport.noBody)
      "Failed to get response stream reader" ∧
    terminalErrored (generateImageStream req (Transport.stream chunks (some msg))) msg ∧
    terminalErrored (generateImageToImageStream ireq (Transport.httpError status))
      ("HTTP error! status: " ++ toString status) ∧
    terminalErrored (generateImageToImageStream ireq Transport.noBody)
      "No response body available for streaming" ∧
    terminalErrored (generateImageToImageStream ireq (Transport.stream ichunks (some msg)))
      msg := by
  refine ⟨⟨rfl, rfl⟩, ⟨rfl, rfl⟩, ?_, ⟨rfl, rfl⟩, ⟨rfl, rfl⟩, ⟨rfl, rfl⟩⟩
  simp only [generateImageStream]
  rcases hr : readLoopT2I (initialStreamState req) chunks with ⟨s2, flag⟩
  cases flag
  · exact ⟨rfl, rfl⟩
  · rw [hr] at hnt
    exact Bool.noConfusion hnt

/-- C10 witness: the theorem at a concrete request, status 500, empty
streams and a concrete mid-stream failure message. -/
theorem c10_transport_failures_caught_witness :
    terminalErrored (generateImageStream reqCat (Transport.httpError 500))
      ("HTTP error! status: " ++ toString (500 : Int)) ∧
    terminalErrored (generateImageStream reqCat Transport.noBody)
      "Failed to get response stream reader" ∧
    terminalErrored (generateImageStream reqCat (Transport.stream [] (some "connection reset")))
      "connection reset" ∧
    terminalErrored (generateImageToImageStream ireqCat (Transport.httpError 500))
      ("HTTP error! status: " ++ toString (500 : Int)) ∧
    terminalErrored (generateImageToImageStream ireqCat Transport.noBody)
      "No response body available for streaming" ∧
    terminalErrored (generateImageToImageStream ireqCat (Transport.stream [] (some "connection reset")))
      "connection reset" :=
  c10_transport_failures_caught reqCat ireqCat 500 [] [] "connection reset" rfl
